import Mathlib

/-!
Verification development for the payment-provider-extractor repository.

The JavaScript sources are shallowly embedded as total Lean functions over
`List Char` / `String`.  Throwing code paths are modelled with `Option` /
explicit error constructors; the asynchronous session orchestrator
(`_runWithSessionTimeout`) is modelled as a pure function of an environment
describing when the remote task settles relative to the deadline and how long
the awaited session-stop call inside the timeout callback takes.

Modelling conventions (noted where they matter):
* JavaScript `String.prototype.trim` is modelled with `Char.isWhitespace`
  (the inputs of interest are ASCII).
* `new URL(u).host` is modelled by `jsUrlHost`, a simplified WHATWG host
  extraction adequate for plain `http(s)://host/path` URLs (parse failure
  of the URL constructor is `none`, mirroring the thrown `TypeError`).
* Regular-expression scans are implemented as direct left-to-right scanners
  with the same token class, scheme alternatives and (for the V2 regex)
  the multiline end-of-line anchor; `\n` and `\r` are the recognised line
  terminators.
-/

/-- Model of JavaScript `String.prototype.trim` on a character list. -/
def jsTrim (cs : List Char) : List Char :=
  ((cs.dropWhile Char.isWhitespace).reverse.dropWhile Char.isWhitespace).reverse

/-- Model of JavaScript `split(sep)` for a single-character separator:
`"".split` gives `[""]`, and separators at the ends give empty pieces. -/
def splitOnChar (sep : Char) : List Char → List (List Char)
  | [] => [[]]
  | c :: cs =>
    let r := splitOnChar sep cs
    if c = sep then [] :: r
    else
      match r with
      | h :: t => (c :: h) :: t
      | [] => [[c]]

/-- Model of `Array.from(new Set(xs))`: deduplicate keeping the first
occurrence of each element, preserving first-seen order. -/
def dedupFirstAux [BEq α] (seen : List α) : List α → List α
  | [] => []
  | a :: t => if seen.contains a then dedupFirstAux seen t
              else a :: dedupFirstAux (a :: seen) t

/-- `Array.from(new Set(xs))` — first-seen-order deduplication. -/
def dedupFirst [BEq α] (l : List α) : List α := dedupFirstAux [] l

/-- `l` contains `pat` as a contiguous subsequence (JS `String.prototype.includes`). -/
def containsSeq [BEq α] : List α → List α → Bool
  | [], pat => pat.isEmpty
  | c :: cs, pat => pat.isPrefixOf (c :: cs) || containsSeq cs pat

/-- JS `includes` on strings (substring test). -/
def strIncludes (s pat : String) : Bool := containsSeq s.data pat.data

/-- Lowercasing of a character list (model of `toLowerCase`, ASCII-adequate). -/
def lowerL (cs : List Char) : List Char := cs.map Char.toLower

/-- JS `String.prototype.replace(pat, rep)` with a string pattern:
replace the leftmost occurrence only. -/
def replaceFirst [BEq α] (pat rep : List α) : List α → List α
  | [] => []
  | c :: cs =>
    if pat.isPrefixOf (c :: cs) then rep ++ (c :: cs).drop pat.length
    else c :: replaceFirst pat rep cs

/-- The character class `[^\s\]\)\">]` of the URL-token regexes. -/
def isTokenChar (c : Char) : Bool :=
  !c.isWhitespace && c != ']' && c != ')' && c != '"' && c != '>'

/-- Case-insensitive `https?:\/\/` at the head of the list: returns the length
of the scheme prefix (8 for `https://`, 7 for `http://`), `none` otherwise. -/
def schemeLen (cs : List Char) : Option Nat :=
  if "https://".data.isPrefixOf (lowerL cs) then some 8
  else if "http://".data.isPrefixOf (lowerL cs) then some 7
  else none

/-- End-of-line position for a multiline `$` anchor: end of input or just
before a line terminator (`\n` or `\r`). -/
def atLineEnd : List Char → Bool
  | [] => true
  | c :: _ => c = '\n' || c = '\r'

/-- Scanner for the V2 fallback regex `/(https?:\/\/[^\s\]\)\">]+)$/gmi`
(end-of-line anchored, global, multiline, case-insensitive): successive
non-overlapping matches, each a scheme followed by a non-empty maximal
token run that reaches the end of its line.  Fuel-based recursion (the fuel
is the input length) so the definition evaluates in the kernel. -/
def v2ScanAux : Nat → List Char → List (List Char)
  | 0, _ => []
  | _, [] => []
  | fuel + 1, c :: cs =>
    match schemeLen (c :: cs) with
    | none => v2ScanAux fuel cs
    | some k =>
      let rest := (c :: cs).drop k
      let tok := rest.takeWhile isTokenChar
      if tok.isEmpty then v2ScanAux fuel cs
      else if atLineEnd (rest.drop tok.length) then
        (c :: cs).take (k + tok.length) :: v2ScanAux fuel ((c :: cs).drop (k + tok.length))
      else v2ScanAux fuel cs

/-- All matches of the anchored V2 URL regex over the raw response text. -/
def v2Scan (cs : List Char) : List (List Char) := v2ScanAux cs.length cs

/-- Scanner for the checkoutAgent fallback regex
`/(https?:\/\/[^\s\]\)\">]+)/gmi` (no anchor): successive non-overlapping
maximal scheme-plus-token-run matches. -/
def caScanAux : Nat → List Char → List (List Char)
  | 0, _ => []
  | _, [] => []
  | fuel + 1, c :: cs =>
    match schemeLen (c :: cs) with
    | none => caScanAux fuel cs
    | some k =>
      let rest := (c :: cs).drop k
      let tok := rest.takeWhile isTokenChar
      if tok.isEmpty then caScanAux fuel cs
      else (c :: cs).take (k + tok.length) :: caScanAux fuel ((c :: cs).drop (k + tok.length))

/-- All matches of the unanchored checkoutAgent URL regex. -/
def caScan (cs : List Char) : List (List Char) := caScanAux cs.length cs

/-- Drop a leading `userinfo@` part of an authority (keep what follows the
last `@`). -/
def afterLastAt (cs : List Char) : List Char :=
  (cs.reverse.takeWhile (fun c => c != '@')).reverse

/-- Simplified model of `new URL(u).host` for absolute http(s) URLs:
scheme, optional userinfo, then the (lowercased) host[:port] up to the first
`/`, `?` or `#`.  `none` models the constructor throwing. -/
def jsUrlHost (cs : List Char) : Option (List Char) :=
  match schemeLen cs with
  | none => none
  | some k =>
    let auth := (cs.drop k).takeWhile (fun c => c != '/' && c != '?' && c != '#')
    let host := afterLastAt auth
    if host.isEmpty then none else some (lowerL host)

/-- Simplified model of `new URL(u).hostname`: the host without the port. -/
def jsUrlHostname (cs : List Char) : Option (List Char) :=
  (jsUrlHost cs).map (fun h => h.takeWhile (fun c => c != ':'))

example : jsTrim "  a b  ".data = "a b".data := by decide
example : splitOnChar '\n' "a\nb".data = ["a".data, "b".data] := by decide
example : v2Scan "x https://a.com tail\nsee https://b.io".data = ["https://b.io".data] := by decide
example : caScan "x https://a.com tail\nsee https://b.io".data
    = ["https://a.com".data, "https://b.io".data] := by decide
example : jsUrlHost "https://pay.altapaysecure.com/abc123".data
    = some "pay.altapaysecure.com".data := by decide
example : jsUrlHost "".data = none := by decide

/-! ## `PaymentURLExtractorV2._parseAgentResponse` (src/paymentAgentV2.js, lines 1078-1129) -/

/-- The structured record built by `PaymentURLExtractorV2._parseAgentResponse`
(plus the `screenshot` slot attached by `_runWithSessionTimeout`).  Absent
JavaScript object properties are `none`. -/
structure V2Result where
  error : Option String := none
  payment_url : Option String := none
  payment_gateway : Option String := none
  payment_providers : Option (List String) := none
  form_filled : Option String := none
  checkout_url : Option String := none
  steps_completed : Option String := none
  issues_encountered : Option String := none
  screenshot_ready : Option String := none
  raw_response : Option String := none
  screenshot : Option String := none
  deriving DecidableEq, Repr

/-- `trimmedLine.replace(key, '').trim()` under the guard that `trimmedLine`
starts with `key`: drop the key prefix and trim. -/
def keyValue (key : String) (t : List Char) : String :=
  String.mk (jsTrim (t.drop key.length))

/-- One iteration of the primary `KEY: value` line loop of the V2 parser
(the if/else-if chain over the trimmed line). -/
def applyLineV2 (r : V2Result) (line : List Char) : V2Result :=
  let t := jsTrim line
  if "PAYMENT_URL:".data.isPrefixOf t then
    { r with payment_url := some (keyValue "PAYMENT_URL:" t) }
  else if "PAYMENT_GATEWAY:".data.isPrefixOf t then
    { r with payment_gateway := some (keyValue "PAYMENT_GATEWAY:" t) }
  else if "PAYMENT_PROVIDERS:".data.isPrefixOf t then
    let providersText := jsTrim (t.drop "PAYMENT_PROVIDERS:".length)
    let provs := ((splitOnChar ',' providersText).map (fun p => jsTrim p)).filterMap
      (fun p => if p.isEmpty then none else some (String.mk p))
    { r with payment_providers := some provs }
  else if "FORM_FILLED:".data.isPrefixOf t then
    { r with form_filled := some (keyValue "FORM_FILLED:" t) }
  else if "CHECKOUT_URL:".data.isPrefixOf t then
    { r with checkout_url := some (keyValue "CHECKOUT_URL:" t) }
  else if "STEPS_COMPLETED:".data.isPrefixOf t then
    { r with steps_completed := some (keyValue "STEPS_COMPLETED:" t) }
  else if "ISSUES_ENCOUNTERED:".data.isPrefixOf t then
    { r with issues_encountered := some (keyValue "ISSUES_ENCOUNTERED:" t) }
  else if "SCREENSHOT_READY:".data.isPrefixOf t then
    { r with screenshot_ready := some (keyValue "SCREENSHOT_READY:" t) }
  else r

/-- The fixed gateway-keyword lexicon of the V2 fallback
(`looksLikeGateway` regex alternation, in source order). -/
def gatewayLexicon : List String :=
  ["altapaysecure", "altapayplatform", "stripe", "adyen", "klarna", "paypal",
   "shopify", "checkout", "opayo", "sagepay", "nets", "worldpay", "braintree",
   "paytrail", "payu", "vivawallet", "mollie", "2checkout", "paddle", "payone",
   "swedbank", "safecheckout", "secure", "payment"]

/-- `looksLikeGateway`: some lexicon keyword occurs in the lowercased URL. -/
def looksLikeGateway (u : List Char) : Bool :=
  gatewayLexicon.any (fun w => containsSeq (lowerL u) w.data)

/-- `origHost` of the V2 fallback: `new URL(originalCheckoutUrl || '').host`
with the thrown error mapped to the empty string. -/
def origHostOf (originalCheckoutUrl : Option String) : List Char :=
  (jsUrlHost (originalCheckoutUrl.getD "").data).getD []

/-- `isExternal`: the candidate's host exists and differs from a non-empty
origin host (`false` when the URL constructor throws or the origin host is
empty). -/
def isExternalTo (origHost : List Char) (u : List Char) : Bool :=
  !origHost.isEmpty &&
    (match jsUrlHost u with
     | some h => h != origHost
     | none => false)

/-- The V2 fallback candidate cascade, verbatim from the source:
`unique.find(ext && gw) || unique.find(gw) || unique.find(ext) || unique[0]`
(with `p` the externality test and `q` the gateway-keyword test; the
candidates are non-empty strings, so JS truthiness agrees with `Option`). -/
def cascadeSelect (p q : α → Bool) (l : List α) : Option α :=
  (l.find? (fun u => p u && q u)) <|> (l.find? q) <|> (l.find? p) <|> l.head?

/-- JS falsiness of a possibly-absent string field. -/
def strFalsy : Option String → Bool
  | none => true
  | some s => s == ""

/-- The V2 `payment_url` fallback pass (source lines 1108-1125): when the
primary pass left `payment_url` falsy, scan the raw text with the anchored
URL regex, deduplicate keeping first-seen order, and select via the
external/gateway cascade. -/
def v2UrlPass (rt : List Char) (originalCheckoutUrl : Option String)
    (r : V2Result) : V2Result :=
  if strFalsy r.payment_url then
    let unique := dedupFirst (v2Scan rt)
    let origHost := origHostOf originalCheckoutUrl
    match cascadeSelect (isExternalTo origHost) looksLikeGateway unique with
    | some u => { r with payment_url := some (String.mk u) }
    | none => r
  else r

/-- Shallow embedding of `PaymentURLExtractorV2._parseAgentResponse`
(src/paymentAgentV2.js lines 1078-1129): primary `KEY: value` line pass,
then the anchored URL-token fallback for `payment_url`, then
`raw_response`.  `none` input models a null/undefined `responseText`. -/
def parseAgentResponseV2 (responseText originalCheckoutUrl : Option String) :
    V2Result :=
  let rt := responseText.getD ""
  if rt = "" then { error := some "No response from agent" }
  else
    let lines := splitOnChar '\n' (jsTrim rt.data)
    let r := v2UrlPass rt.data originalCheckoutUrl (lines.foldl applyLineV2 {})
    { r with raw_response := some rt }

example :
    (parseAgentResponseV2
      (some "PAYMENT_URL: https://pay.x.com/1\nPAYMENT_GATEWAY: Stripe") none).payment_url
    = some "https://pay.x.com/1" := by decide
example :
    (parseAgentResponseV2
      (some "PAYMENT_URL: not-a-url\nhttps://pay.altapaysecure.com/abc123")
      (some "https://shop.example.dk/checkout")).payment_url
    = some "not-a-url" := by decide
example :
    (parseAgentResponseV2
      (some "blah\nfound https://shop.example.dk/x\nthen https://pay.altapaysecure.com/abc123")
      (some "https://shop.example.dk/checkout")).payment_url
    = some "https://pay.altapaysecure.com/abc123" := by decide
example : (parseAgentResponseV2 (some "PAYMENT_URL:") none).payment_url = some "" := by decide
example : (parseAgentResponseV2 (some "") none).raw_response = none := by decide
example :
    (parseAgentResponseV2 (some "PAYMENT_PROVIDERS: Visa, Visa") none).payment_providers
    = some ["Visa", "Visa"] := by decide

/-! ## `CheckoutAgent._parseAgentResponse` (src/checkoutAgent.js, lines 418-538) -/

/-- The structured record built by `checkoutAgent.js`'s `_parseAgentResponse`. -/
structure CAResult where
  error : Option String := none
  checkout_url : Option String := none
  payment_providers : Option (List String) := none
  product_added : Option String := none
  website_name : Option String := none
  steps_completed : Option String := none
  issues_encountered : Option String := none
  screenshot_ready : Option String := none
  raw_response : Option String := none
  deriving DecidableEq, Repr

/-- One iteration of the primary `KEY: value` line loop of the checkoutAgent
parser (the if/else-if chain over the trimmed line). -/
def applyLineCA (r : CAResult) (line : List Char) : CAResult :=
  let t := jsTrim line
  if "CHECKOUT_URL:".data.isPrefixOf t then
    { r with checkout_url := some (keyValue "CHECKOUT_URL:" t) }
  else if "PAYMENT_PROVIDERS:".data.isPrefixOf t then
    let providersText := jsTrim (t.drop "PAYMENT_PROVIDERS:".length)
    let provs := ((splitOnChar ',' providersText).map (fun p => jsTrim p)).filterMap
      (fun p => if p.isEmpty then none else some (String.mk p))
    { r with payment_providers := some provs }
  else if "PRODUCT_ADDED:".data.isPrefixOf t then
    { r with product_added := some (keyValue "PRODUCT_ADDED:" t) }
  else if "WEBSITE_NAME:".data.isPrefixOf t then
    { r with website_name := some (keyValue "WEBSITE_NAME:" t) }
  else if "STEPS_COMPLETED:".data.isPrefixOf t then
    { r with steps_completed := some (keyValue "STEPS_COMPLETED:" t) }
  else if "ISSUES_ENCOUNTERED:".data.isPrefixOf t then
    { r with issues_encountered := some (keyValue "ISSUES_ENCOUNTERED:" t) }
  else if "SCREENSHOT_READY:".data.isPrefixOf t then
    { r with screenshot_ready := some (keyValue "SCREENSHOT_READY:" t) }
  else r

/-- `isLoginUrl` — `/login|signin|signup|register|account\/login|account\/signup|auth/i`. -/
def isLoginUrl (u : List Char) : Bool :=
  ["login", "signin", "signup", "register", "account/login", "account/signup",
   "auth"].any (fun w => containsSeq (lowerL u) w.data)

/-- `looksLikeCheckout` —
`/checkout|checkouts|cart|kasse|kassa|cassa|panier|koszyk|košík|carrello|køb/i`. -/
def looksLikeCheckoutUrl (u : List Char) : Bool :=
  ["checkout", "checkouts", "cart", "kasse", "kassa", "cassa", "panier",
   "koszyk", "košík", "carrello", "køb"].any (fun w => containsSeq (lowerL u) w.data)

/-- `/^https?:\/\//i.test(s)` — the structural-URL guard of the checkoutAgent
URL fallback. -/
def startsWithHttp (s : String) : Bool := (schemeLen s.data).isSome

/-- The fixed brand lexicon (`paymentKeywords`) of the checkoutAgent provider
fallback, in source order. -/
def paymentKeywords : List String :=
  ["Visa", "Mastercard", "PayPal", "Stripe", "Adyen", "Klarna", "Afterpay",
   "Shop Pay", "Google Pay", "Apple Pay", "CB", "Carte Bancaire",
   "American Express", "PayPlug", "Lyra", "Sofort", "iDEAL", "Bancontact",
   "SEPA"]

/-- The checkoutAgent provider fallback scan: brands of the lexicon whose
lowercased text occurs in the lowercased response, emitted in lexicon order. -/
def providersFallbackCA (text : List Char) : List String :=
  paymentKeywords.filter (fun p => containsSeq (lowerL text) (lowerL p.data))

/-- The domain-shaped-token regex of the website-name fallback:
`(?:https?:\/\/)?(?:www\.)?([a-zA-Z0-9-]+\.[a-zA-Z]{2,})` (case-sensitive),
tried at one position; returns capture group 1. -/
def domainAt (cs : List Char) : Option (List Char) :=
  let core := fun (xs : List Char) =>
    let run := xs.takeWhile (fun c => c.isAlpha || c.isDigit || c = '-')
    if run.isEmpty then none
    else
      match xs.drop run.length with
      | '.' :: rest2 =>
        let arun := rest2.takeWhile Char.isAlpha
        if 2 ≤ arun.length then some (run ++ '.' :: arun) else none
      | _ => none
  let afterWww := fun (xs : List Char) =>
    if "www.".data.isPrefixOf xs then
      match core (xs.drop 4) with
      | some d => some d
      | none => core xs
    else core xs
  if "https://".data.isPrefixOf cs then
    match afterWww (cs.drop 8) with
    | some d => some d
    | none => afterWww cs
  else if "http://".data.isPrefixOf cs then
    match afterWww (cs.drop 7) with
    | some d => some d
    | none => afterWww cs
  else afterWww cs

/-- Leftmost match of the domain-shaped-token regex over the whole text
(`domainMatches[0][1]`). -/
def findDomain : List Char → Option (List Char)
  | [] => none
  | c :: cs =>
    match domainAt (c :: cs) with
    | some d => some d
    | none => findDomain cs

/-- The product-keyword list of the product-name fallback, in source order. -/
def productKeywords : List String :=
  ["product", "item", "perfume", "fragrance", "bottle", "602", "pepper",
   "cedar", "patchouli"]

/-- Inner line search of the product fallback: the first raw line that
contains the keyword (case-insensitively) and has length strictly between
5 and 100. -/
def findProductLine (text kw : List Char) : Option (List Char) :=
  (splitOnChar '\n' text).find?
    (fun l => containsSeq (lowerL l) kw && decide (5 < l.length) &&
      decide (l.length < 100))

/-- Outer keyword loop of the product fallback.  `init` is the value of
`result.product_added` on entry (`'Unknown'` is truthy in JS, so a truthy
initial value makes the loop break after the first keyword present in the
text even when no line qualified). -/
def productScanFrom (init : Option String) (text : List Char) :
    List String → Option String
  | [] => init
  | kw :: rest =>
    if containsSeq (lowerL text) kw.data then
      let newVal :=
        match findProductLine text kw.data with
        | some l => some (String.mk (jsTrim l))
        | none => init
      if strFalsy newVal then productScanFrom init text rest else newVal
    else productScanFrom init text rest

/-- JS falsiness of the `payment_providers` field
(`!result.payment_providers || result.payment_providers.length === 0`). -/
def provsFalsy : Option (List String) → Bool
  | none => true
  | some l => l.isEmpty

/-- checkoutAgent "Enhanced URL extraction" pass (source lines 447-467):
runs when `checkout_url` is falsy or does not start with a URL scheme;
scans the raw text with the unanchored URL regex, trims and deduplicates
candidates, filters out login URLs, prefers checkout-looking URLs. -/
def caUrlPass (rt : List Char) (r : CAResult) : CAResult :=
  if strFalsy r.checkout_url || !startsWithHttp (r.checkout_url.getD "") then
    let unique := dedupFirst ((caScan rt).map (fun m => jsTrim m))
    let checkoutUrls :=
      unique.filter (fun u => looksLikeCheckoutUrl u && !isLoginUrl u)
    match checkoutUrls.head? <|> unique.find? (fun u => !isLoginUrl u) <|>
        unique.head? with
    | some u => { r with checkout_url := some (String.mk u) }
    | none => r
  else r

/-- checkoutAgent "Enhanced payment provider extraction" pass (source lines
469-491): when the primary list is absent or empty, substring-scan the
brand lexicon and keep the result only when non-empty. -/
def caProvidersPass (rt : List Char) (r : CAResult) : CAResult :=
  if provsFalsy r.payment_providers then
    let foundProviders := providersFallbackCA rt
    if foundProviders.isEmpty then r
    else { r with payment_providers := some foundProviders }
  else r

/-- checkoutAgent "Enhanced website name extraction" pass (source lines
493-509): derive the website name from the checkout URL's hostname with a
leading `www.` replaced, else from the first domain-shaped token. -/
def caWebsitePass (rt : List Char) (r : CAResult) : CAResult :=
  if strFalsy r.website_name || r.website_name == some "Unknown" then
    match r.checkout_url with
    | some u =>
      if u == "" then
        match findDomain rt with
        | some d => { r with website_name := some (String.mk d) }
        | none => r
      else
        match jsUrlHostname u.data with
        | some h =>
          let wn := String.mk (replaceFirst "www.".data [] h)
          { r with website_name := some wn }
        | none => r
    | none =>
      match findDomain rt with
      | some d => { r with website_name := some (String.mk d) }
      | none => r
  else r

/-- checkoutAgent "Enhanced product name extraction" pass (source lines
511-532). -/
def caProductPass (rt : List Char) (r : CAResult) : CAResult :=
  if strFalsy r.product_added || r.product_added == some "Unknown" then
    match productScanFrom r.product_added rt productKeywords with
    | some v => { r with product_added := some v }
    | none => r
  else r

/-- Shallow embedding of `checkoutAgent.js`'s `_parseAgentResponse`
(lines 418-538): primary `KEY: value` pass, URL fallback (with the
structural `^https?:\/\/` re-check), provider brand-lexicon fallback,
website-name fallback and product-name fallback, then `raw_response`. -/
def parseCheckoutAgentResponse (responseText : Option String) : CAResult :=
  let rt := responseText.getD ""
  if rt = "" then { error := some "No response from agent" }
  else
    let lines := splitOnChar '\n' (jsTrim rt.data)
    let r := lines.foldl applyLineCA {}
    let r := caUrlPass rt.data r
    let r := caProvidersPass rt.data r
    let r := caWebsitePass rt.data r
    let r := caProductPass rt.data r
    { r with raw_response := some rt }

example :
    (parseCheckoutAgentResponse
      (some "CHECKOUT_URL: not-a-url\nhttps://pay.altapaysecure.com/abc123")).checkout_url
    = some "https://pay.altapaysecure.com/abc123" := by decide
example :
    (parseCheckoutAgentResponse (some "PAYMENT_PROVIDERS: Visa, Visa")).payment_providers
    = some ["Visa", "Visa"] := by decide
example :
    (parseCheckoutAgentResponse (some "Paying with PayPal and Visa today")).payment_providers
    = some ["Visa", "PayPal"] := by decide
example :
    (parseCheckoutAgentResponse
      (some "CHECKOUT_URL: https://www.shop.fr/checkout")).website_name
    = some "shop.fr" := by decide

/-! ## `_inferCountryProfile` (src/paymentAgentV2.js lines 951-1071 and
src/backupPaymentAgent.js lines 35-120) -/

/-- The locale profile record. -/
structure LocaleProfile where
  code : String
  acceptLanguage : String
  firstName : String
  lastName : String
  address : String
  postalCode : String
  city : String
  phone : String
  cardLabel : String
  payLabel : String
  deriving DecidableEq, Repr

/-- Default (European) profile of `paymentAgentV2.js`. -/
def defaultProfileV2 : LocaleProfile :=
  { code := "default"
    acceptLanguage := "en-GB,en;q=0.9,fr;q=0.8,de;q=0.7,it;q=0.6,es;q=0.5,da;q=0.4,pl;q=0.3"
    firstName := "James", lastName := "Smith", address := "15 High Street"
    postalCode := "SW1A 1AA", city := "London", phone := "+44 20 7946 0958"
    cardLabel := "Credit Card", payLabel := "Pay Now" }

/-- Italian profile (shared literal of both agents). -/
def itProfile : LocaleProfile :=
  { code := "it", acceptLanguage := "it-IT,it;q=0.9,en;q=0.8"
    firstName := "Giuseppe", lastName := "Rossi", address := "Via Roma 45"
    postalCode := "20100", city := "Milano", phone := "+39 02 12345678"
    cardLabel := "Carta di credito", payLabel := "Paga ora" }

/-- French profile of `paymentAgentV2.js`. -/
def frProfile : LocaleProfile :=
  { code := "fr", acceptLanguage := "fr-FR,fr;q=0.9,en;q=0.8"
    firstName := "Marie", lastName := "Dubois", address := "15 Rue de Rivoli"
    postalCode := "75001", city := "Paris", phone := "01 23 45 67 89"
    cardLabel := "Carte bancaire", payLabel := "Payer maintenant" }

/-- Danish profile (shared literal of both agents). -/
def dkProfile : LocaleProfile :=
  { code := "dk", acceptLanguage := "da-DK,da;q=0.9,en;q=0.8"
    firstName := "Lars", lastName := "Hansen", address := "Hovedgade 12"
    postalCode := "8200", city := "Aarhus", phone := "22 33 11 11"
    cardLabel := "Betalingskort", payLabel := "Betal nu" }

/-- German profile (shared literal of both agents). -/
def deProfile : LocaleProfile :=
  { code := "de", acceptLanguage := "de-DE,de;q=0.9,en;q=0.8"
    firstName := "Hans", lastName := "Müller", address := "Hauptstraße 12"
    postalCode := "10115", city := "Berlin", phone := "+49 30 12345678"
    cardLabel := "Kreditkarte", payLabel := "Jetzt bezahlen" }

/-- Spanish profile (shared literal of both agents). -/
def esProfile : LocaleProfile :=
  { code := "es", acceptLanguage := "es-ES,es;q=0.9,en;q=0.8"
    firstName := "Carlos", lastName := "Lopez", address := "Calle Mayor 8"
    postalCode := "28001", city := "Madrid", phone := "+34 91 12345678"
    cardLabel := "Tarjeta", payLabel := "Pagar ahora" }

/-- Polish profile (shared literal of both agents). -/
def plProfile : LocaleProfile :=
  { code := "pl", acceptLanguage := "pl-PL,pl;q=0.9,en;q=0.8"
    firstName := "Jan", lastName := "Kowalski", address := "ul. Marszałkowska 123"
    postalCode := "00-001", city := "Warszawa", phone := "+48 22 12345678"
    cardLabel := "Karta", payLabel := "Zapłać teraz" }

/-- Default (US) profile of `backupPaymentAgent.js`. -/
def defaultProfileBackup : LocaleProfile :=
  { code := "default", acceptLanguage := "en-US,en;q=0.9"
    firstName := "John", lastName := "Smith", address := "123 Main St"
    postalCode := "12345", city := "New York", phone := "+1 555 123 4567"
    cardLabel := "Credit Card", payLabel := "Pay Now" }

/-- French profile of `backupPaymentAgent.js` (lines 133-147; its address
and phone differ from the V2 French profile). -/
def frProfileBackup : LocaleProfile :=
  { code := "fr", acceptLanguage := "fr-FR,fr;q=0.9,en;q=0.8"
    firstName := "Marie", lastName := "Dubois", address := "Rue de Rivoli 123"
    postalCode := "75001", city := "Paris", phone := "+33 1 23 45 67 89"
    cardLabel := "Carte bancaire", payLabel := "Payer maintenant" }

/-- `urlStr.includes(s)` after `(checkoutUrl || '').toLowerCase()`. -/
def urlHas (checkoutUrl : Option String) (s : String) : Bool :=
  containsSeq (lowerL (checkoutUrl.getD "").data) s.data

/-- Shallow embedding of `PaymentURLExtractorV2._inferCountryProfile`
(src/paymentAgentV2.js lines 951-1071): a fixed-priority substring cascade
over the lowercased URL (Italy, France, Denmark, Germany, Spain, Poland,
else the default European profile). -/
def inferCountryProfileV2 (checkoutUrl : Option String) : LocaleProfile :=
  let has := urlHas checkoutUrl
  if has ".it" || has "it-it" || has "it_it" || has "lang=it" ||
      has "locale=it" || has "italia" || has "italiano" || has "italian" ||
      has "milano" || has "roma" || has "napoli" || has "torino" ||
      has "firenze" || has "bologna" || has "venezia" then itProfile
  else if has ".fr" || has "fr-fr" || has "fr_fr" || has "lang=fr" ||
      has "locale=fr" || has "france" || has "français" || has "francais" ||
      has "french" || has "paris" || has "lyon" || has "marseille" ||
      has "toulouse" || has "nice" || has "nantes" || has "bordeaux" ||
      has "lille" || has "strasbourg" || has "rennes" || has "montpellier" then
    frProfile
  else if has ".dk" || has "da-dk" || has "/da" || has "lang=da" ||
      has "locale=da" then dkProfile
  else if has ".de" || has "de-de" || has "lang=de" || has "locale=de" then
    deProfile
  else if has ".es" || has "es-es" || has "lang=es" || has "locale=es" then
    esProfile
  else if has ".pl" || has "pl-pl" || has "lang=pl" || has "locale=pl" then
    plProfile
  else defaultProfileV2

/-- Shallow embedding of `_inferCountryProfile` of
`src/backupPaymentAgent.js` (lines 35-150): cascade order Denmark, Germany,
Italy, Spain, Poland, France, else the default US profile. -/
def inferCountryProfileBackup (checkoutUrl : Option String) : LocaleProfile :=
  let has := urlHas checkoutUrl
  if has ".dk" || has "da-dk" || has "/da" || has "lang=da" ||
      has "locale=da" then dkProfile
  else if has ".de" || has "de-de" || has "lang=de" || has "locale=de" then
    deProfile
  else if has ".it" || has "it-it" || has "lang=it" || has "locale=it" then
    itProfile
  else if has ".es" || has "es-es" || has "lang=es" || has "locale=es" then
    esProfile
  else if has ".pl" || has "pl-pl" || has "lang=pl" || has "locale=pl" then
    plProfile
  else if has ".fr" || has "fr-fr" || has "lang=fr" || has "locale=fr" then
    frProfileBackup
  else defaultProfileBackup

example : inferCountryProfileV2 (some "https://boutique.example.fr/panier") = frProfile := by
  decide
example : inferCountryProfileV2 none = defaultProfileV2 := by decide
example : inferCountryProfileV2 (some "not a url at all") = defaultProfileV2 := by decide
example : inferCountryProfileBackup (some "https://shop.example.dk/checkout") = dkProfile := by
  decide
example : inferCountryProfileBackup (some "https://boutique.example.fr/panier")
    = frProfileBackup := by decide

/-! ## `PaymentURLExtractorV2._runWithSessionTimeout`
(src/paymentAgentV2.js, lines 1414-1552)

The orchestrator is asynchronous; it is embedded as a pure function of an
environment describing the relevant behaviour of the remote provider:

* `createOk` — whether `hb.sessions.create` succeeds (a failure throws
  before the timeout or the task is started, so nothing is stopped);
* `taskTime` — the instant (ms after the session was created) at which the
  `browserUse.startAndWait` promise settles;
* `taskOk` — whether it settles by resolving (`true`) or rejecting;
* `taskText` — the structured `finalResult` text carried by a resolution
  (`result.data.finalResult` and the flat `result.finalResult` shape both
  feed the same parse call; `none` models a result with no structured text,
  which produces the literal fallback record);
* `rawJson` — the `JSON.stringify(result)` text stored in that fallback
  record;
* `liveUrl` — the session live URL that `_capturePaymentScreenshot`
  obtains, `none` when unavailable (that helper catches its own errors);
* `timeoutMs` — the configured deadline (`timeoutMinutes * 60 * 1000`);
* `stopLatency` — the duration of the awaited `hb.sessions.stop` call
  inside the `setTimeout` callback: the timeout promise rejects only at
  `timeoutMs + stopLatency`, because the callback awaits the stop call
  before calling `reject`.

`Promise.race` resolves with whichever of the task promise
(settling at `taskTime`) and the timeout promise (rejecting at
`timeoutMs + stopLatency`) settles first; if the task settles strictly
before the deadline the timer is cleared before it fires.  Failures of the
stop call itself are caught and only warned about in the source, so they
do not alter control flow and are not part of the environment.  The result
of the model is the outcome together with the number of `hb.sessions.stop`
calls that were issued. -/

/-- Behaviour of the optional `progressCallback` sink: absent, present and
never throwing, or present and throwing when invoked (the first invocation
happens inside the `try` block before the session is created). -/
inductive SinkB
  | noSink
  | okSink
  | throwSink
  deriving DecidableEq, Repr

/-- Typed failures surfaced by the orchestrator. -/
inductive RunError
  | creationFailed
  | taskFailed
  | timedOut
  | sinkFailed
  deriving DecidableEq, Repr

/-- Outcome of one bounded invocation: a returned record or a thrown error. -/
inductive RunOutcome
  | ok (r : V2Result)
  | err (e : RunError)
  deriving DecidableEq, Repr

/-- Environment of one `_runWithSessionTimeout` invocation (see the section
comment). -/
structure RunEnv where
  createOk : Bool
  taskTime : Nat
  taskOk : Bool
  taskText : Option String
  rawJson : String
  liveUrl : Option String
  timeoutMs : Nat
  stopLatency : Nat
  deriving DecidableEq, Repr

/-- The literal fallback record built when the resolved task carries no
structured response text (source lines 1499-1509). -/
def unstructuredRecord (originalCheckoutUrl : Option String) (rawJson : String) :
    V2Result :=
  { checkout_url := originalCheckoutUrl
    form_filled := some "Unknown"
    payment_url := none
    payment_gateway := some "Unknown"
    steps_completed := some "Task completed but no structured response"
    issues_encountered := some "No structured response from agent"
    raw_response := some rawJson }

/-- The record returned on a resolved task: parse the structured text (or
build the literal fallback record), then attach the screenshot live URL
when `_capturePaymentScreenshot` produced one. -/
def buildRecord (env : RunEnv) (originalCheckoutUrl : Option String) : V2Result :=
  let parsed :=
    match env.taskText with
    | some t =>
      if t.isEmpty then unstructuredRecord originalCheckoutUrl env.rawJson
      else parseAgentResponseV2 (some t) originalCheckoutUrl
    | none => unstructuredRecord originalCheckoutUrl env.rawJson
  match env.liveUrl with
  | some u => { parsed with screenshot := some u }
  | none => parsed

/-- Shallow embedding of `_runWithSessionTimeout` (lines 1414-1552),
returning the outcome and the number of `hb.sessions.stop` calls issued.
Control flow, from the source: a throwing sink aborts before the session is
created (first `progressCallback` call is inside `try`, so the catch block
runs with no session to stop); a failed creation throws with no stop; a
task settling strictly before the deadline wins the race and the timer is
cleared (one stop, on the normal path or in the catch block); once the
deadline fires the callback issues a stop and rejects after awaiting it, so
the race outcome depends on whether the task settles before
`timeoutMs + stopLatency`, and the path taken afterwards always issues a
second stop. -/
def runWithSessionTimeout (env : RunEnv) (originalCheckoutUrl : Option String)
    (sink : SinkB) : RunOutcome × Nat :=
  if sink = SinkB.throwSink then (RunOutcome.err RunError.sinkFailed, 0)
  else if !env.createOk then (RunOutcome.err RunError.creationFailed, 0)
  else if env.taskTime < env.timeoutMs then
    if env.taskOk then (RunOutcome.ok (buildRecord env originalCheckoutUrl), 1)
    else (RunOutcome.err RunError.taskFailed, 1)
  else if env.taskTime < env.timeoutMs + env.stopLatency then
    if env.taskOk then (RunOutcome.ok (buildRecord env originalCheckoutUrl), 2)
    else (RunOutcome.err RunError.taskFailed, 2)
  else (RunOutcome.err RunError.timedOut, 2)

/-- A normal successful invocation: task resolves well before the deadline. -/
def envSuccess : RunEnv :=
  { createOk := true, taskTime := 30000, taskOk := true
    taskText := some "PAYMENT_URL: https://pay.x.com/1", rawJson := "null"
    liveUrl := none, timeoutMs := 210000, stopLatency := 150 }

/-- A timed-out invocation: the task would only settle long after the
deadline and the timeout rejection. -/
def envTimeout : RunEnv :=
  { createOk := true, taskTime := 500000, taskOk := true
    taskText := some "PAYMENT_URL: https://pay.x.com/1", rawJson := "null"
    liveUrl := none, timeoutMs := 210000, stopLatency := 150 }

/-- A late-success invocation: the task resolves after the deadline fired
but before the awaited stop call inside the timeout callback finished, so
the task still wins `Promise.race`. -/
def envLateSuccess : RunEnv :=
  { createOk := true, taskTime := 210050, taskOk := true
    taskText := some "PAYMENT_URL: https://pay.x.com/1", rawJson := "null"
    liveUrl := none, timeoutMs := 210000, stopLatency := 150 }

example :
    runWithSessionTimeout envSuccess none SinkB.noSink
    = (RunOutcome.ok (buildRecord envSuccess none), 1) := by decide
example :
    (runWithSessionTimeout envTimeout none SinkB.noSink).1
    = RunOutcome.err RunError.timedOut := by decide
example : (runWithSessionTimeout envTimeout none SinkB.noSink).2 = 2 := by decide
example :
    (runWithSessionTimeout envLateSuccess none SinkB.noSink).1
    = RunOutcome.ok (buildRecord envLateSuccess none) := by decide

/-! ## Auxiliary predicates and lemmas -/

/-- Selection by the precedence the specification states (modelled from the
spec's words for comparison with `cascadeSelect`): score candidates
lexicographically by gateway-keyword match first, host-difference second,
first-seen order as final tiebreak, and pick the highest-scoring one. -/
def specSelect (p q : α → Bool) (l : List α) : Option α :=
  (l.find? (fun u => q u && p u)) <|> (l.find? (fun u => q u && !p u)) <|>
    (l.find? (fun u => !q u && p u)) <|> (l.find? (fun u => !q u && !p u))

theorem find?_congr_mem {f g : α → Bool} :
    ∀ l : List α, (∀ u ∈ l, f u = g u) → l.find? f = l.find? g := by
  intro l
  induction l with
  | nil => intro _; rfl
  | cons a t ih =>
    intro h
    have ha := h a (List.mem_cons_self a t)
    simp only [List.find?_cons, ha]
    cases hg : g a with
    | true => rfl
    | false => exact ih (fun u hu => h u (List.mem_cons_of_mem a hu))

theorem find?_all_true {f : α → Bool} :
    ∀ l : List α, (∀ u ∈ l, f u = true) → l.find? f = l.head? := by
  intro l h
  cases l with
  | nil => rfl
  | cons a t =>
    have := h a (List.mem_cons_self a t)
    simp [List.find?_cons, this]

/-- The source's four-stage `||` cascade computes exactly the
lexicographic keyword-then-host-then-order selection. -/
theorem cascadeSelect_eq_specSelect (p q : α → Bool) (l : List α) :
    cascadeSelect p q l = specSelect p q l := by
  unfold cascadeSelect specSelect
  have h1 : l.find? (fun u => p u && q u) = l.find? (fun u => q u && p u) :=
    find?_congr_mem l (fun u _ => Bool.and_comm (p u) (q u))
  rw [h1]
  cases hA : l.find? (fun u => q u && p u) with
  | some x => rfl
  | none =>
    have hall : ∀ u ∈ l, ¬(q u && p u) = true := List.find?_eq_none.mp hA
    have h2 : l.find? q = l.find? (fun u => q u && !p u) := by
      apply find?_congr_mem
      intro u hu
      have := hall u hu
      cases hq : q u <;> cases hp : p u <;> simp_all
    rw [h2]
    cases hB : l.find? (fun u => q u && !p u) with
    | some x => rfl
    | none =>
      have hallB : ∀ u ∈ l, ¬(q u && !p u) = true := List.find?_eq_none.mp hB
      have hq0 : ∀ u ∈ l, q u = false := by
        intro u hu
        have h3 := hall u hu
        have h4 := hallB u hu
        cases hq : q u <;> cases hp : p u <;> simp_all
      have h5 : l.find? p = l.find? (fun u => !q u && p u) := by
        apply find?_congr_mem
        intro u hu
        simp [hq0 u hu]
      rw [h5]
      cases hC : l.find? (fun u => !q u && p u) with
      | some x => rfl
      | none =>
        have hallC : ∀ u ∈ l, ¬(!q u && p u) = true := List.find?_eq_none.mp hC
        have h6 : l.find? (fun u => !q u && !p u) = l.head? := by
          apply find?_all_true
          intro u hu
          have h7 := hallC u hu
          have h8 := hq0 u hu
          cases hp : p u <;> simp_all
        rw [h6]

/-- No `https?://` scheme occurrence anywhere in the text (the absence of
any URL-shaped token for both fallback regexes). -/
def noSchemeOccur : List Char → Bool
  | [] => true
  | c :: cs => (schemeLen (c :: cs)).isNone && noSchemeOccur cs

/-- Every scheme occurrence in the text is followed, on its line, by at
least one further character excluded from the token class before the line
ends — i.e. no URL token extends to the end of its line.  (When the
token run after a scheme is empty the regex cannot match there either.) -/
def schemeGuarded : List Char → Bool
  | [] => true
  | c :: cs =>
    (match schemeLen (c :: cs) with
     | some k =>
       let rest := (c :: cs).drop k
       let tok := rest.takeWhile isTokenChar
       tok.isEmpty || !atLineEnd (rest.drop tok.length)
     | none => true) && schemeGuarded cs

/-- No line of the trimmed text starts (after trimming the line) with the
given primary key. -/
def noPrimaryKeyLine (key : String) (t : String) : Bool :=
  (splitOnChar '\n' (jsTrim t.data)).all
    (fun l => !(key.data.isPrefixOf (jsTrim l)))

theorem v2ScanAux_nil_of_noScheme :
    ∀ (fuel : Nat) (cs : List Char), noSchemeOccur cs = true →
      v2ScanAux fuel cs = [] := by
  intro fuel
  induction fuel with
  | zero => intro cs _; cases cs <;> rfl
  | succ n ih =>
    intro cs h
    cases cs with
    | nil => rfl
    | cons c t =>
      have h1 : (schemeLen (c :: t)).isNone = true ∧ noSchemeOccur t = true := by
        simpa [noSchemeOccur, Bool.and_eq_true] using h
      unfold v2ScanAux
      rcases h2 : schemeLen (c :: t) with _ | k
      · exact ih t h1.2
      · rw [h2] at h1; simp [Option.isNone] at h1

theorem caScanAux_nil_of_noScheme :
    ∀ (fuel : Nat) (cs : List Char), noSchemeOccur cs = true →
      caScanAux fuel cs = [] := by
  intro fuel
  induction fuel with
  | zero => intro cs _; cases cs <;> rfl
  | succ n ih =>
    intro cs h
    cases cs with
    | nil => rfl
    | cons c t =>
      have h1 : (schemeLen (c :: t)).isNone = true ∧ noSchemeOccur t = true := by
        simpa [noSchemeOccur, Bool.and_eq_true] using h
      unfold caScanAux
      rcases h2 : schemeLen (c :: t) with _ | k
      · exact ih t h1.2
      · rw [h2] at h1; simp [Option.isNone] at h1

theorem v2ScanAux_nil_of_guarded :
    ∀ (fuel : Nat) (cs : List Char), schemeGuarded cs = true →
      v2ScanAux fuel cs = [] := by
  intro fuel
  induction fuel with
  | zero => intro cs _; cases cs <;> rfl
  | succ n ih =>
    intro cs h
    cases cs with
    | nil => rfl
    | cons c t =>
      rcases h2 : schemeLen (c :: t) with _ | k
      · have h1 : schemeGuarded t = true := by
          have := h
          unfold schemeGuarded at this
          rw [h2] at this
          simpa [Bool.and_eq_true] using this
        unfold v2ScanAux
        rw [h2]
        exact ih t h1
      · have h1 := h
        unfold schemeGuarded at h1
        rw [h2] at h1
        rw [Bool.and_eq_true] at h1
        unfold v2ScanAux
        rw [h2]
        rcases Bool.or_eq_true_iff.mp h1.1 with he | hl
        · simp only [he]
          exact ih t h1.2
        · rw [Bool.not_eq_true'] at hl
          by_cases he2 : (((c :: t).drop k).takeWhile isTokenChar).isEmpty = true
          · simp only [he2]
            exact ih t h1.2
          · simp only [he2, hl]
            simp only [Bool.false_eq_true, if_false]
            exact ih t h1.2

theorem applyLineV2_payment_url {r : V2Result} {line : List Char}
    (h : "PAYMENT_URL:".data.isPrefixOf (jsTrim line) = false) :
    (applyLineV2 r line).payment_url = r.payment_url := by
  unfold applyLineV2
  simp only [h, Bool.false_eq_true, if_false]
  repeat' split
  all_goals rfl

theorem foldl_applyLineV2_payment_url :
    ∀ (lines : List (List Char)) (r : V2Result),
      (∀ l ∈ lines, "PAYMENT_URL:".data.isPrefixOf (jsTrim l) = false) →
      (lines.foldl applyLineV2 r).payment_url = r.payment_url := by
  intro lines
  induction lines with
  | nil => intro r _; rfl
  | cons a t ih =>
    intro r h
    rw [List.foldl_cons]
    rw [ih (applyLineV2 r a) (fun l hl => h l (List.mem_cons_of_mem a hl))]
    exact applyLineV2_payment_url (h a (List.mem_cons_self a t))

theorem applyLineCA_checkout_url {r : CAResult} {line : List Char}
    (h : "CHECKOUT_URL:".data.isPrefixOf (jsTrim line) = false) :
    (applyLineCA r line).checkout_url = r.checkout_url := by
  unfold applyLineCA
  simp only [h, Bool.false_eq_true, if_false]
  repeat' split
  all_goals rfl

theorem foldl_applyLineCA_checkout_url :
    ∀ (lines : List (List Char)) (r : CAResult),
      (∀ l ∈ lines, "CHECKOUT_URL:".data.isPrefixOf (jsTrim l) = false) →
      (lines.foldl applyLineCA r).checkout_url = r.checkout_url := by
  intro lines
  induction lines with
  | nil => intro r _; rfl
  | cons a t ih =>
    intro r h
    rw [List.foldl_cons]
    rw [ih (applyLineCA r a) (fun l hl => h l (List.mem_cons_of_mem a hl))]
    exact applyLineCA_checkout_url (h a (List.mem_cons_self a t))

theorem v2UrlPass_payment_url_none {rt : List Char} {o : Option String}
    {r : V2Result} (hscan : v2Scan rt = []) (h : r.payment_url = none) :
    (v2UrlPass rt o r).payment_url = none := by
  unfold v2UrlPass
  rw [h]
  simp only [strFalsy, if_true]
  rw [hscan]
  exact h

theorem caUrlPass_checkout_url_none {rt : List Char} {r : CAResult}
    (hscan : caScan rt = []) (h : r.checkout_url = none) :
    (caUrlPass rt r).checkout_url = none := by
  unfold caUrlPass
  rw [h]
  simp only [strFalsy, Bool.true_or, if_true]
  rw [hscan]
  exact h

theorem caUrlPass_payment_providers (rt : List Char) (r : CAResult) :
    (caUrlPass rt r).payment_providers = r.payment_providers := by
  simp only [caUrlPass]
  repeat' split
  all_goals rfl

theorem caProvidersPass_checkout_url (rt : List Char) (r : CAResult) :
    (caProvidersPass rt r).checkout_url = r.checkout_url := by
  simp only [caProvidersPass]
  repeat' split
  all_goals rfl

theorem caWebsitePass_checkout_url (rt : List Char) (r : CAResult) :
    (caWebsitePass rt r).checkout_url = r.checkout_url := by
  simp only [caWebsitePass]
  repeat' split
  all_goals rfl

theorem caWebsitePass_payment_providers (rt : List Char) (r : CAResult) :
    (caWebsitePass rt r).payment_providers = r.payment_providers := by
  simp only [caWebsitePass]
  repeat' split
  all_goals rfl

theorem caProductPass_checkout_url (rt : List Char) (r : CAResult) :
    (caProductPass rt r).checkout_url = r.checkout_url := by
  simp only [caProductPass]
  repeat' split
  all_goals rfl

theorem caProductPass_payment_providers (rt : List Char) (r : CAResult) :
    (caProductPass rt r).payment_providers = r.payment_providers := by
  simp only [caProductPass]
  repeat' split
  all_goals rfl

/-! ## Claim theorems -/

/-- C1, counterexample: on the timeout path of `_runWithSessionTimeout`
the remote session-termination call is issued twice (once inside the
`setTimeout` callback, once again in the catch block), so "exactly once"
fails even though the session was successfully created. -/
theorem c1_counterexample :
    envTimeout.createOk = true ∧
    (runWithSessionTimeout envTimeout none SinkB.noSink).2 ≠ 1 := by decide

/-- C1, amended: for every invocation with a successfully created session
(and a sink that does not throw), the session-termination call is issued at
least once — exactly once when the remote task settles before the deadline,
and exactly twice once the deadline timer has fired (timeout, late success
and late failure paths alike). -/
theorem c1_stop_call_count (env : RunEnv) (o : Option String) (sink : SinkB)
    (hs : sink ≠ SinkB.throwSink) (hc : env.createOk = true) :
    (runWithSessionTimeout env o sink).2
      = if env.taskTime < env.timeoutMs then 1 else 2 := by
  unfold runWithSessionTimeout
  rw [if_neg hs, hc]
  simp only [Bool.not_true, Bool.false_eq_true, if_false]
  by_cases h1 : env.taskTime < env.timeoutMs
  · rw [if_pos h1, if_pos h1]
    cases htk : env.taskOk <;> rfl
  · rw [if_neg h1, if_neg h1]
    by_cases h2 : env.taskTime < env.timeoutMs + env.stopLatency
    · rw [if_pos h2]
      cases htk : env.taskOk <;> rfl
    · rw [if_neg h2]

/-- Witness for `c1_stop_call_count` at a concrete environment. -/
theorem c1_stop_call_count_witness :
    SinkB.okSink ≠ SinkB.throwSink ∧ envSuccess.createOk = true ∧
    (runWithSessionTimeout envSuccess none SinkB.okSink).2
      = if envSuccess.taskTime < envSuccess.timeoutMs then 1 else 2 :=
  ⟨by decide, by decide,
    c1_stop_call_count envSuccess none SinkB.okSink (by decide) (by decide)⟩

/-- C4, counterexample: a remote task that settles after the deadline has
fired but before the awaited stop call inside the timeout callback
completes still wins `Promise.race`, so the bounded execution surfaces the
late success value rather than the timeout failure. -/
theorem c4_counterexample :
    envLateSuccess.timeoutMs < envLateSuccess.taskTime ∧
    (runWithSessionTimeout envLateSuccess none SinkB.noSink).1
      ≠ RunOutcome.err RunError.timedOut := by decide

/-- C4, amended: if the remote task settles only at or after the instant the
timeout rejection settles (deadline plus the latency of the awaited
session-stop call), the bounded execution surfaces the timeout failure and
never the late success value. -/
theorem c4_timeout_surfaced (env : RunEnv) (o : Option String) (sink : SinkB)
    (hs : sink ≠ SinkB.throwSink) (hc : env.createOk = true)
    (hl : env.timeoutMs + env.stopLatency ≤ env.taskTime) :
    (runWithSessionTimeout env o sink).1 = RunOutcome.err RunError.timedOut := by
  unfold runWithSessionTimeout
  rw [if_neg hs, hc]
  simp only [Bool.not_true, Bool.false_eq_true, if_false]
  rw [if_neg (by omega), if_neg (by omega)]

/-- Witness for `c4_timeout_surfaced` at a concrete environment. -/
theorem c4_timeout_surfaced_witness :
    SinkB.noSink ≠ SinkB.throwSink ∧ envTimeout.createOk = true ∧
    envTimeout.timeoutMs + envTimeout.stopLatency ≤ envTimeout.taskTime ∧
    (runWithSessionTimeout envTimeout none SinkB.noSink).1
      = RunOutcome.err RunError.timedOut :=
  ⟨by decide, by decide, by decide,
    c4_timeout_surfaced envTimeout none SinkB.noSink (by decide) (by decide)
      (by decide)⟩

/-- C9, counterexample: a progress sink that throws when invoked changes the
outcome of the bounded execution (the sink's error propagates out of the
catch block instead of the normal record being returned). -/
theorem c9_counterexample :
    (runWithSessionTimeout envSuccess none SinkB.throwSink).1
      ≠ (runWithSessionTimeout envSuccess none SinkB.noSink).1 := by decide

/-- C9, amended: a progress sink that never throws does not affect the
core's outcome (identical result and stop-call count as with no sink), but
a sink that throws when invoked aborts the bounded execution with the
sink's own error before the session is created. -/
theorem c9_sink_isolation (env : RunEnv) (o : Option String) :
    runWithSessionTimeout env o SinkB.okSink
      = runWithSessionTimeout env o SinkB.noSink ∧
    runWithSessionTimeout env o SinkB.throwSink
      = (RunOutcome.err RunError.sinkFailed, 0) := by
  constructor
  · unfold runWithSessionTimeout
    rw [if_neg (show ¬SinkB.okSink = SinkB.throwSink by decide),
      if_neg (show ¬SinkB.noSink = SinkB.throwSink by decide)]
  · rfl

/-- C2, counterexample: for missing (null/undefined) and for empty response
text, `_parseAgentResponse` returns the error record, whose `rawResponse`
field is not set. -/
theorem c2_counterexample :
    (parseAgentResponseV2 none none).raw_response = none ∧
    (parseAgentResponseV2 (some "") none).raw_response = none ∧
    (parseCheckoutAgentResponse (some "")).raw_response = none := by decide

/-- C2, amended: for every non-empty input text, both extractors throw
nothing (they are total functions of their input) and return a record whose
`rawResponse` field is set to the input text; for empty or missing text
they instead return an `error` record without `rawResponse`. -/
theorem c2_raw_response_set (s : String) (o : Option String) (h : s ≠ "") :
    (parseAgentResponseV2 (some s) o).raw_response = some s ∧
    (parseCheckoutAgentResponse (some s)).raw_response = some s := by
  constructor
  · simp only [parseAgentResponseV2, Option.getD]
    rw [if_neg h]
  · simp only [parseCheckoutAgentResponse, Option.getD]
    rw [if_neg h]

/-- Witness for `c2_raw_response_set` at a concrete text. -/
theorem c2_raw_response_set_witness :
    ("agent says hi" : String) ≠ "" ∧
    (parseAgentResponseV2 (some "agent says hi") none).raw_response
      = some "agent says hi" ∧
    (parseCheckoutAgentResponse (some "agent says hi")).raw_response
      = some "agent says hi" :=
  ⟨by decide, (c2_raw_response_set "agent says hi" none (by decide)).1,
    (c2_raw_response_set "agent says hi" none (by decide)).2⟩

/-- C3, counterexample: in the cited scenario the V2 extractor keeps the
structurally invalid primary value `not-a-url` — the fallback is guarded
only by falsiness of `payment_url`, so it does not run and the bare
trailing gateway URL is not selected. -/
theorem c3_counterexample :
    (parseAgentResponseV2
      (some "PAYMENT_URL: not-a-url\nhttps://pay.altapaysecure.com/abc123")
      (some "https://shop.example.dk/checkout")).payment_url
      = some "not-a-url" ∧
    (some "not-a-url" : Option String)
      ≠ some "https://pay.altapaysecure.com/abc123" := by decide

/-- C3, amended: the structural-validity re-check exists only in the
checkoutAgent extractor's checkout-URL fallback: there, a primary value
`not-a-url` plus the bare trailing token yields the external gateway URL,
while the V2 payment-URL fallback runs only when the field is unset or
empty, so the cited V2 scenario returns `not-a-url`. -/
theorem c3_structural_recheck_checkout_only :
    (parseCheckoutAgentResponse
      (some "CHECKOUT_URL: not-a-url\nhttps://pay.altapaysecure.com/abc123")).checkout_url
      = some "https://pay.altapaysecure.com/abc123" ∧
    (parseAgentResponseV2
      (some "PAYMENT_URL: not-a-url\nhttps://pay.altapaysecure.com/abc123")
      (some "https://shop.example.dk/checkout")).payment_url
      = some "not-a-url" := by decide

/-- C5: the V2 fallback's four-stage cascade
(`find(external ∧ gateway) || find(gateway) || find(external) || first`)
selects exactly the candidate given by the specification's precedence:
gateway-keyword match outranks host-difference, which outranks first-seen
order. -/
theorem c5_fallback_precedence (origHost : List Char)
    (unique : List (List Char)) :
    cascadeSelect (isExternalTo origHost) looksLikeGateway unique
      = specSelect (isExternalTo origHost) looksLikeGateway unique :=
  cascadeSelect_eq_specSelect _ _ unique

/-- C6, counterexample: the text `PAYMENT_URL:` contains no URL-shaped
token, yet the returned record's `payment_url` is the empty string (set by
the primary pass and left in place by the fallback), not absent. -/
theorem c6_counterexample :
    noSchemeOccur "PAYMENT_URL:".data = true ∧
    (parseAgentResponseV2 (some "PAYMENT_URL:") none).payment_url
      = some "" := by decide

/-- C6, amended: for every input text containing no URL-shaped token *and*
no primary line for the corresponding key, the URL field of the returned
record is absent — `payment_url` for the V2 extractor, `checkout_url` for
the checkoutAgent extractor.  (A primary `PAYMENT_URL:`/`CHECKOUT_URL:`
line can still plant an empty or non-URL value.) -/
theorem c6_no_url_token_fields_absent (t : String) (o : Option String)
    (hns : noSchemeOccur t.data = true) :
    (noPrimaryKeyLine "PAYMENT_URL:" t = true →
      (parseAgentResponseV2 (some t) o).payment_url = none) ∧
    (noPrimaryKeyLine "CHECKOUT_URL:" t = true →
      (parseCheckoutAgentResponse (some t)).checkout_url = none) := by
  constructor
  · intro hk
    by_cases h0 : t = ""
    · subst h0; rfl
    · have hlines : ∀ l ∈ splitOnChar '\n' (jsTrim t.data),
          "PAYMENT_URL:".data.isPrefixOf (jsTrim l) = false := by
        intro l hl
        have h1 := List.all_eq_true.mp hk l hl
        simpa using h1
      have hfold :
          ((splitOnChar '\n' (jsTrim t.data)).foldl applyLineV2 {}).payment_url
            = none :=
        (foldl_applyLineV2_payment_url _ {} hlines).trans rfl
      simp only [parseAgentResponseV2, Option.getD]
      rw [if_neg h0]
      exact v2UrlPass_payment_url_none (v2ScanAux_nil_of_noScheme _ _ hns) hfold
  · intro hk
    by_cases h0 : t = ""
    · subst h0; rfl
    · have hlines : ∀ l ∈ splitOnChar '\n' (jsTrim t.data),
          "CHECKOUT_URL:".data.isPrefixOf (jsTrim l) = false := by
        intro l hl
        have h1 := List.all_eq_true.mp hk l hl
        simpa using h1
      have hfold :
          ((splitOnChar '\n' (jsTrim t.data)).foldl applyLineCA {}).checkout_url
            = none :=
        (foldl_applyLineCA_checkout_url _ {} hlines).trans rfl
      simp only [parseCheckoutAgentResponse, Option.getD]
      rw [if_neg h0]
      exact (caProductPass_checkout_url _ _).trans
        ((caWebsitePass_checkout_url _ _).trans
          ((caProvidersPass_checkout_url _ _).trans
            (caUrlPass_checkout_url_none (caScanAux_nil_of_noScheme _ _ hns)
              hfold)))

/-- Witness for `c6_no_url_token_fields_absent` at a concrete text. -/
theorem c6_no_url_token_fields_absent_witness :
    noSchemeOccur "no links in here".data = true ∧
    noPrimaryKeyLine "PAYMENT_URL:" "no links in here" = true ∧
    noPrimaryKeyLine "CHECKOUT_URL:" "no links in here" = true ∧
    (parseAgentResponseV2 (some "no links in here") none).payment_url = none ∧
    (parseCheckoutAgentResponse (some "no links in here")).checkout_url = none :=
  ⟨by decide, by decide, by decide,
    (c6_no_url_token_fields_absent "no links in here" none (by decide)).1
      (by decide),
    (c6_no_url_token_fields_absent "no links in here" none (by decide)).2
      (by decide)⟩

/-- C7: both `_inferCountryProfile` implementations are total,
deterministic, side-effect-free functions: every input (including `none`,
the empty string and malformed URLs) yields one of the fixed profile
literals — the documented default on no match — and resolving the same URL
twice yields structurally identical profiles. -/
theorem c7_locale_resolution_total (u : Option String) :
    (inferCountryProfileV2 u = inferCountryProfileV2 u ∧
      inferCountryProfileV2 u ∈
        [itProfile, frProfile, dkProfile, deProfile, esProfile, plProfile,
          defaultProfileV2]) ∧
    (inferCountryProfileBackup u = inferCountryProfileBackup u ∧
      inferCountryProfileBackup u ∈
        [dkProfile, deProfile, itProfile, esProfile, plProfile,
          frProfileBackup, defaultProfileBackup]) := by
  refine ⟨⟨rfl, ?_⟩, ⟨rfl, ?_⟩⟩
  · simp only [inferCountryProfileV2]
    repeat' split
    all_goals simp
  · simp only [inferCountryProfileBackup]
    repeat' split
    all_goals simp

/-- The brand lexicon of the provider fallback has no duplicate entries. -/
theorem paymentKeywords_nodup : paymentKeywords.Nodup := by decide

/-- C8, counterexample: the primary comma-split pass performs no
deduplication, so a `PAYMENT_PROVIDERS: Visa, Visa` line produces a
provider list with a duplicate entry. -/
theorem c8_counterexample :
    (parseCheckoutAgentResponse
      (some "PAYMENT_PROVIDERS: Visa, Visa")).payment_providers
      = some ["Visa", "Visa"] ∧
    ¬(["Visa", "Visa"] : List String).Nodup := by decide

/-- C8, amended: when the primary pass left the provider list absent or
empty, any provider list in the returned record comes from the
brand-lexicon fallback and is duplicate-free and in lexicon order (a
sublist of the fixed lexicon); the primary comma-split pass, by contrast,
preserves the comma order of the text including any duplicates. -/
theorem c8_provider_list_dedup (t : String)
    (hp : provsFalsy (((splitOnChar '\n' (jsTrim t.data)).foldl applyLineCA
      {}).payment_providers) = true) :
    ∀ l, (parseCheckoutAgentResponse (some t)).payment_providers = some l →
      l.Nodup ∧ l.Sublist paymentKeywords := by
  intro l hl
  by_cases h0 : t = ""
  · subst h0
    have hnone : (parseCheckoutAgentResponse (some "")).payment_providers
        = none := by decide
    rw [hnone] at hl
    exact absurd hl (by simp)
  · simp only [parseCheckoutAgentResponse, Option.getD] at hl
    rw [if_neg h0] at hl
    have hl2 :
        (caProductPass t.data (caWebsitePass t.data (caProvidersPass t.data
          (caUrlPass t.data
            ((splitOnChar '\n' (jsTrim t.data)).foldl applyLineCA
              {}))))).payment_providers = some l := hl
    rw [caProductPass_payment_providers, caWebsitePass_payment_providers]
      at hl2
    have hguard : provsFalsy ((caUrlPass t.data
        ((splitOnChar '\n' (jsTrim t.data)).foldl applyLineCA
          {})).payment_providers) = true := by
      rw [caUrlPass_payment_providers]
      exact hp
    unfold caProvidersPass at hl2
    rw [if_pos hguard] at hl2
    by_cases hfb : (providersFallbackCA t.data).isEmpty
    · rw [if_pos hfb] at hl2
      rw [caUrlPass_payment_providers] at hl2
      rw [hl2] at hp
      have : l = [] := by
        simpa [provsFalsy, List.isEmpty_iff] using hp
      subst this
      exact ⟨List.nodup_nil, List.nil_sublist _⟩
    · rw [if_neg hfb] at hl2
      have : providersFallbackCA t.data = l := by
        simpa using hl2
      subst this
      exact ⟨paymentKeywords_nodup.filter _, List.filter_sublist _⟩

/-- Witness for `c8_provider_list_dedup` at a concrete text. -/
theorem c8_provider_list_dedup_witness :
    provsFalsy (((splitOnChar '\n'
      (jsTrim "Paying with PayPal and Visa".data)).foldl applyLineCA
      {}).payment_providers) = true ∧
    (parseCheckoutAgentResponse
      (some "Paying with PayPal and Visa")).payment_providers
      = some ["Visa", "PayPal"] ∧
    (["Visa", "PayPal"] : List String).Nodup ∧
    (["Visa", "PayPal"] : List String).Sublist paymentKeywords :=
  ⟨by decide, by decide,
    (c8_provider_list_dedup "Paying with PayPal and Visa" (by decide)
      ["Visa", "PayPal"] (by decide)).1,
    (c8_provider_list_dedup "Paying with PayPal and Visa" (by decide)
      ["Visa", "PayPal"] (by decide)).2⟩

/-- C10: the V2 fallback regex is anchored at end-of-line, so when the text
has no primary `PAYMENT_URL:` line and every URL token is followed on its
line by at least one further character excluded from the token class, the
fallback selects no candidate and `payment_url` remains unset. -/
theorem c10_anchored_fallback (t : String) (o : Option String)
    (hk : noPrimaryKeyLine "PAYMENT_URL:" t = true)
    (hg : schemeGuarded t.data = true) :
    (parseAgentResponseV2 (some t) o).payment_url = none := by
  by_cases h0 : t = ""
  · subst h0; rfl
  · have hlines : ∀ l ∈ splitOnChar '\n' (jsTrim t.data),
        "PAYMENT_URL:".data.isPrefixOf (jsTrim l) = false := by
      intro l hl
      have h1 := List.all_eq_true.mp hk l hl
      simpa using h1
    have hfold :
        ((splitOnChar '\n' (jsTrim t.data)).foldl applyLineV2 {}).payment_url
          = none :=
      (foldl_applyLineV2_payment_url _ {} hlines).trans rfl
    simp only [parseAgentResponseV2, Option.getD]
    rw [if_neg h0]
    exact v2UrlPass_payment_url_none (v2ScanAux_nil_of_guarded _ _ hg) hfold

/-- Witness for `c10_anchored_fallback` at a concrete text: the URL token
is followed by a space and trailing words, so the anchored fallback finds
nothing. -/
theorem c10_anchored_fallback_witness :
    noPrimaryKeyLine "PAYMENT_URL:"
      "visit https://pay.example.com now\nSTEPS_COMPLETED: done" = true ∧
    schemeGuarded
      "visit https://pay.example.com now\nSTEPS_COMPLETED: done".data = true ∧
    (parseAgentResponseV2
      (some "visit https://pay.example.com now\nSTEPS_COMPLETED: done")
      none).payment_url = none :=
  ⟨by decide, by decide,
    c10_anchored_fallback
      "visit https://pay.example.com now\nSTEPS_COMPLETED: done" none
      (by decide) (by decide)⟩
